import Mathlib

/-!
Verification development for the PySceneDetect video-stream layer:
a shallow embedding of scenedetect/video_stream.py and
scenedetect/backends/opencv.py, followed by theorems checking the
specified behaviour of the seek/read state machine, the position
reporting properties, the downscale policy, and the open-time frame
rate resolution.

Python floats are modelled as exact rationals, Python ints as Lean
integers, exceptions as an explicit error type returned through Except.
-/

namespace PySceneDetect

/-- Error taxonomy of the stream layer.  Each constructor stands for one
Python exception class raised by the embedded code: SeekError,
ValueError, RuntimeError, VideoOpenFailure and IOError.  Exception
message strings are not modelled. -/
inductive StreamError where
  | seekError
  | valueError
  | runtimeError
  | videoOpenFailure
  | ioError
deriving DecidableEq

/-- Modelled from the spec: the Timecode value of the frame_timecode
module, which is not included in src/.  Attributes per the spec data
model: a zero-based frame number (an integer, negative values allowed
for before-start arithmetic) and a frame rate in frames per second. -/
structure FrameTimecode where
  frame_num : ℤ
  framerate : ℚ
deriving DecidableEq

/-- Returns the integer frame number of a timecode (to_frames in the
spec, get_frames in the adapter source). -/
def FrameTimecode.get_frames (tc : FrameTimecode) : ℤ :=
  tc.frame_num

/-- Addition of an integer frame offset to a timecode: a new timecode
with frame_num + offset at the same rate (spec section 4.1). -/
def FrameTimecode.addFrames (tc : FrameTimecode) (n : ℤ) : FrameTimecode :=
  { tc with frame_num := tc.frame_num + n }

/-- A seek target as accepted by VideoStreamCv2.seek: a Python int
(frame number), a Python float (time in seconds), or a FrameTimecode. -/
inductive SeekTarget where
  | int (n : ℤ)
  | float (s : ℚ)
  | timecode (tc : FrameTimecode)
deriving DecidableEq

/-- Modelled from the spec: addition of a seek target to a timecode,
as performed by base_timecode + target in the adapter source (the
FrameTimecode addition operator lives in the frame_timecode module,
not included in src/).  Integer targets add a frame offset, float
targets are converted to frames via the frame rate, Timecode targets
are used directly (spec section 4.4, general path). -/
def FrameTimecode.addTarget (tc : FrameTimecode) : SeekTarget → FrameTimecode
  | SeekTarget.int n => tc.addFrames n
  | SeekTarget.float s => tc.addFrames (round (s * tc.framerate))
  | SeekTarget.timecode u => tc.addFrames u.frame_num

/-- Model of the decoder side of a cv2.VideoCapture handle, restricted
to the properties the adapter uses (spec section 6).  posFrames is the
native zero-based index of the next frame to grab (CAP_PROP_POS_FRAMES,
already truncated to an integer); posMsec is the native presentation
time query (CAP_PROP_POS_MSEC). -/
structure Cv2Capture where
  opened : Bool
  posFrames : ℤ
  posMsec : ℚ
  fps : ℚ
deriving DecidableEq

/-- Decoder grab step: advances the native frame position by one and
refreshes the native presentation time to that of the frame just
grabbed (index posFrames, time posFrames / fps seconds). -/
def Cv2Capture.grab (c : Cv2Capture) : Cv2Capture :=
  { c with
    posFrames := c.posFrames + 1
    posMsec := (c.posFrames : ℚ) * 1000 / c.fps }

/-- Decoder position-set step (cap.set with CAP_PROP_POS_FRAMES): moves
the native frame position without decoding, leaving the native
presentation time query stale. -/
def Cv2Capture.setPosFrames (c : Cv2Capture) (n : ℤ) : Cv2Capture :=
  { c with posFrames := n }

/-- Decoder retrieve step: decodes and returns the frame buffer of the
most recently grabbed frame, identified here by its native zero-based
index (posFrames - 1 after a grab). -/
def Cv2Capture.retrieve (c : Cv2Capture) : ℤ :=
  c.posFrames - 1

/-- State of a VideoStreamCv2 adapter: the underlying capture handle,
whether the source is a device (integer path), the resolved frame rate,
the two state-machine booleans initialised in the constructor, and the
downscale field inherited from the VideoStream base class. -/
structure VideoStreamCv2 where
  cap : Cv2Capture
  isDevice : Bool
  frameRate : ℚ
  hasSeeked : Bool
  hasGrabbed : Bool
  downscale : ℤ
deriving DecidableEq

/-- The zero-position timecode at the frame rate of the stream
(VideoStream.base_timecode). -/
def VideoStreamCv2.base_timecode (v : VideoStreamCv2) : FrameTimecode :=
  { frame_num := 0, framerate := v.frameRate }

/-- Current position in frames (VideoStreamCv2.frame_number): the live,
truncated decoder-native CAP_PROP_POS_FRAMES query. -/
def VideoStreamCv2.frame_number (v : VideoStreamCv2) : ℤ :=
  v.cap.posFrames

/-- Current position as a timecode (VideoStreamCv2.position):
base_timecode when frame_number < 1, otherwise
base_timecode + (frame_number - 1). -/
def VideoStreamCv2.position (v : VideoStreamCv2) : FrameTimecode :=
  if v.frame_number < 1 then v.base_timecode
  else v.base_timecode.addFrames (v.frame_number - 1)

/-- Current native presentation time in milliseconds
(VideoStreamCv2.position_ms): raises RuntimeError when hasSeeked is
set, otherwise returns the decoder-native CAP_PROP_POS_MSEC query. -/
def VideoStreamCv2.position_ms (v : VideoStreamCv2) : Except StreamError ℚ :=
  if v.hasSeeked then Except.error StreamError.runtimeError
  else Except.ok v.cap.posMsec

/-- Guard helper of seek: the first ValueError guard fires exactly on
integer targets that are not positive (not target > 0 in the source). -/
def SeekTarget.isNonPositiveInt : SeekTarget → Bool
  | SeekTarget.int n => decide (¬ 0 < n)
  | _ => false

/-- Guard helper of seek: the second ValueError guard fires exactly on
negative float targets (target < 0.0 in the source). -/
def SeekTarget.isNegativeFloat : SeekTarget → Bool
  | SeekTarget.float s => decide (s < 0)
  | _ => false

/-- Guard helper of seek: the special case for the integer target 0. -/
def SeekTarget.isIntZero : SeekTarget → Bool
  | SeekTarget.int n => decide (n = 0)
  | _ => false

/-- Integer seek targets are decremented by one before the timecode
conversion (external 1-based to internal 0-based); other targets pass
through unchanged. -/
def SeekTarget.decrementInt : SeekTarget → SeekTarget
  | SeekTarget.int n => SeekTarget.int (n - 1)
  | t => t

/-- VideoStreamCv2.seek, embedded branch by branch from the source:
device check raising SeekError, the two ValueError guards, the special
case for the integer target 0 (position to native frame 0, clear
hasGrabbed, no grab), and the general path (decrement integer targets,
convert through base_timecode, set the native position, perform one
grab, set hasGrabbed).  Note the source never assigns hasSeeked. -/
def VideoStreamCv2.seek (v : VideoStreamCv2) (target : SeekTarget) :
    Except StreamError VideoStreamCv2 :=
  if v.isDevice then
    Except.error StreamError.seekError
  else if target.isNonPositiveInt then
    Except.error StreamError.valueError
  else if target.isNegativeFloat then
    Except.error StreamError.valueError
  else if target.isIntZero then
    Except.ok { v with cap := v.cap.setPosFrames 0, hasGrabbed := false }
  else
    let target1 := target.decrementInt
    let target_frame_cv2 := (v.base_timecode.addTarget target1).get_frames
    let cap1 := (v.cap.setPosFrames target_frame_cv2).grab
    Except.ok { v with cap := cap1, hasGrabbed := true }

/-- VideoStreamCv2.read: returns the updated adapter state paired with
the decoded frame buffer, if any.  Mirrors the source: absence when the
capture is not opened; on advance, one grab with hasGrabbed set and
hasSeeked cleared; a retrieve only when decode is requested and a frame
has been grabbed. -/
def VideoStreamCv2.read (v : VideoStreamCv2) (decode advance : Bool) :
    VideoStreamCv2 × Option ℤ :=
  if ¬ v.cap.opened then (v, none)
  else
    let v1 := if advance then
        { v with cap := v.cap.grab, hasGrabbed := true, hasSeeked := false }
      else v
    if decode ∧ v1.hasGrabbed then (v1, some v1.cap.retrieve)
    else (v1, none)

/-- The downscale threshold table of video_stream.py, listed in the
descending threshold order produced by sorted(..., reverse=True): each
pair is a width threshold and the downscale factor chosen for it. -/
def DEFAULT_DOWNSCALE_FACTORS : List (ℤ × ℤ) :=
  [(3200, 12), (2100, 8), (1700, 6), (1200, 5), (900, 4), (600, 3), (400, 2)]

/-- compute_downscale_factor from video_stream.py: walk the threshold
table in descending threshold order and return the factor of the first
threshold not exceeding the frame width; 1 when none matches.  The
source iterates sorted(DEFAULT_DOWNSCALE_FACTORS, reverse=True), which
is exactly the list order above. -/
def compute_downscale_factor (frame_width : ℤ) : ℤ :=
  match DEFAULT_DOWNSCALE_FACTORS.find? (fun p => frame_width ≥ p.1) with
  | some p => p.2
  | none => 1

/-- A Python numeric value as passed to the downscale setter: either an
int or a float (kept distinct because the setter branches on the
runtime type via isinstance). -/
inductive PyNum where
  | int (n : ℤ)
  | float (q : ℚ)
deriving DecidableEq

/-- Numeric value of a PyNum, used by Python comparison operators that
compare ints and floats by value. -/
def PyNum.toRat : PyNum → ℚ
  | PyNum.int n => (n : ℚ)
  | PyNum.float q => q

/-- Python int() applied to a float: truncation toward zero. -/
def pyTrunc (q : ℚ) : ℤ :=
  if 0 ≤ q then ⌊q⌋ else ⌈q⌉

/-- The VideoStream.downscale setter: rejects any value below 1 with a
ValueError before any coercion; a non-int value of at least 1 is
truncated to an integer (with a logged warning, not modelled) and
stored; an int value is stored as is. -/
def VideoStreamCv2.set_downscale (v : VideoStreamCv2) (downscale_factor : PyNum) :
    Except StreamError VideoStreamCv2 :=
  if downscale_factor.toRat < 1 then Except.error StreamError.valueError
  else
    match downscale_factor with
    | PyNum.int n => Except.ok { v with downscale := n }
    | PyNum.float q => Except.ok { v with downscale := pyTrunc q }

/-- Modelled from the spec: the minimum frame-rate threshold
(MINIMUM_FRAMES_PER_SECOND_FLOAT of the frame_timecode module, not
included in src/).  The spec fixes no numeric value, only that the
threshold is positive; a concrete small positive rational is used so
the development stays executable. -/
def MINIMUM_FRAMES_PER_SECOND_FLOAT : ℚ := 1 / 1000

/-- Python truthiness of the optional framerate argument of
_open_capture: None and 0.0 are falsy, every other float is truthy. -/
def framerateFalsy : Option ℚ → Bool
  | none => true
  | some q => decide (q = 0)

/-- The frame-rate resolution step of VideoStreamCv2._open_capture
(the if not framerate block): when the supplied override is falsy the
decoder-reported rate is queried and rejected with VideoOpenFailure if
it is below the minimum threshold; otherwise the override is stored
unchanged. -/
def resolve_framerate (framerate : Option ℚ) (reported : ℚ) :
    Except StreamError ℚ :=
  if framerateFalsy framerate then
    if reported < MINIMUM_FRAMES_PER_SECOND_FLOAT then
      Except.error StreamError.videoOpenFailure
    else Except.ok reported
  else Except.ok (framerate.getD 0)

/-- A freshly opened file-backed (non-device) adapter over a decoder
reporting 10 frames per second, used as the concrete state for the
counterexample and code-evaluation theorems. -/
def sampleAdapter : VideoStreamCv2 :=
  { cap := { opened := true, posFrames := 0, posMsec := 0, fps := 10 }
    isDevice := false
    frameRate := 10
    hasSeeked := false
    hasGrabbed := false
    downscale := 1 }

/-- A device-backed (webcam) adapter, used to witness the device seek
behaviour. -/
def deviceAdapter : VideoStreamCv2 :=
  { cap := { opened := true, posFrames := 0, posMsec := 0, fps := 30 }
    isDevice := true
    frameRate := 30
    hasSeeked := false
    hasGrabbed := false
    downscale := 1 }

/-- Whether an Except value is a success, used to state that a property
query does not raise. -/
def exceptOk {ε α : Type} : Except ε α → Bool
  | Except.ok _ => true
  | Except.error _ => false

/-- Decidable equality on Except values, so that concrete runs of the
embedded operations can be checked by evaluation. -/
instance {ε α : Type} [DecidableEq ε] [DecidableEq α] : DecidableEq (Except ε α)
  | Except.error a, Except.error b =>
      if h : a = b then Decidable.isTrue (congrArg Except.error h)
      else Decidable.isFalse (fun hh => h ((Except.error.injEq _ _).mp hh))
  | Except.error _, Except.ok _ => Decidable.isFalse (fun hh => Except.noConfusion hh)
  | Except.ok _, Except.error _ => Decidable.isFalse (fun hh => Except.noConfusion hh)
  | Except.ok a, Except.ok b =>
      if h : a = b then Decidable.isTrue (congrArg Except.ok h)
      else Decidable.isFalse (fun hh => h ((Except.ok.injEq _ _).mp hh))

/-- The downscale table lookup in the words of the spec: the factor
paired with the largest threshold that does not exceed the width, and
1 when the width is below the smallest threshold. -/
def downscale_factor_spec (w : ℤ) : ℤ :=
  if 3200 ≤ w then 12
  else if 2100 ≤ w then 8
  else if 1700 ≤ w then 6
  else if 1200 ≤ w then 5
  else if 900 ≤ w then 4
  else if 600 ≤ w then 3
  else if 400 ≤ w then 2
  else 1

/-- Explicit form of the general seek path on a positive integer
target: the native position is set to the converted index k - 1 and the
single grab advances it to k, refreshing the native presentation time;
hasGrabbed is set and hasSeeked is left untouched. -/
theorem VideoStreamCv2.seek_int_eq (v : VideoStreamCv2) (k : ℤ)
    (hdev : v.isDevice = false) (hk : 1 ≤ k) :
    v.seek (SeekTarget.int k) = Except.ok
      { v with
        cap := { v.cap with
                 posFrames := k
                 posMsec := ((k : ℚ) - 1) * 1000 / v.cap.fps }
        hasGrabbed := true } := by
  have hk0 : 0 < k := by omega
  have hkne : k ≠ 0 := by omega
  have e1 : (0 : ℤ) + (k - 1) + 1 = k := by ring
  have e2 : (((0 : ℤ) + (k - 1) : ℤ) : ℚ) = (k : ℚ) - 1 := by
    push_cast
    ring
  simp [VideoStreamCv2.seek, SeekTarget.isNonPositiveInt,
    SeekTarget.isNegativeFloat, SeekTarget.isIntZero,
    SeekTarget.decrementInt, VideoStreamCv2.base_timecode,
    FrameTimecode.addTarget, FrameTimecode.addFrames,
    FrameTimecode.get_frames, Cv2Capture.setPosFrames, Cv2Capture.grab,
    hdev, hk0, hkne, e1, e2]

/-- Explicit form of the first component of read with advance: when the
capture is opened, the state after read is the grabbed state with
hasGrabbed set and hasSeeked cleared, independently of decode. -/
theorem VideoStreamCv2.read_advance_fst (v : VideoStreamCv2) (decode : Bool)
    (h : v.cap.opened = true) :
    (v.read decode true).1 =
      { v with cap := v.cap.grab, hasGrabbed := true, hasSeeked := false } := by
  by_cases hd : decode = true
  · simp [VideoStreamCv2.read, h, hd]
  · simp [VideoStreamCv2.read, h, hd]

/-- C1: the claim says querying position_ms after a completed seek to a
positive target and before any read with advance must fail with the
stale-state RuntimeError.  The code never assigns hasSeeked, so after
seek(5) on a fresh file-backed adapter the query succeeds and returns
the decoder-native CAP_PROP_POS_MSEC value instead of raising, contrary
to the docstring of position_ms. -/
theorem c1_position_ms_not_stale_after_seek :
    (sampleAdapter.seek (SeekTarget.int 5)).map
        (fun v => (exceptOk v.position_ms, v.hasSeeked))
      = Except.ok (true, false) := by
  decide

/-- C2: the claim says seek with the integer target 0 is accepted and
resets the adapter to the initial state.  The guard of seek rejects
every non-positive integer including 0 with a ValueError, so the
special-case branch for the integer 0 is unreachable, contrary to the
in-code comment introducing that branch and to the docstring of reset
which calls reset equivalent to seek(0). -/
theorem c2_seek_zero_raises_value_error :
    sampleAdapter.seek (SeekTarget.int 0)
      = Except.error StreamError.valueError := by
  decide

/-- C3: the claim says seek on a valid non-zero target sets the
computed native position, performs exactly one grab, and leaves the
adapter in SEEK_PENDING with hasSeeked = true and hasGrabbed = true.
On seek(7) the code does set the position (native index 6) and grab
once (position 7) with hasGrabbed = true, but hasSeeked remains false
because no assignment to it exists in seek. -/
theorem c3_seek_does_not_enter_seek_pending :
    (sampleAdapter.seek (SeekTarget.int 7)).map
        (fun v => (v.cap.posFrames, v.hasGrabbed, v.hasSeeked))
      = Except.ok (7, true, false) := by
  decide

/-- C4 counterexample: seek(5) followed by read(advance=true) on a
fresh file-backed adapter leaves frame_number = 6, not 5 as the claim
states. -/
theorem c4_counterexample_frame_number_after_seek_read :
    ((sampleAdapter.seek (SeekTarget.int 5)).map
        (fun v => (v.read true true).1.frame_number) = Except.ok 6)
  ∧ ((sampleAdapter.seek (SeekTarget.int 5)).map
        (fun v => (v.read true true).1.frame_number) ≠ Except.ok 5) := by
  constructor
  · decide
  · decide

/-- C4 amended: for every seekable open adapter and integer k ≥ 1,
seek(k) positions the stream at frame_number = k (the target frame is
the one already grabbed), and a following read(advance=true) advances
it, leaving frame_number = k + 1. -/
theorem c4_frame_number_after_seek_and_read (v : VideoStreamCv2) (k : ℤ)
    (decode : Bool) (w : VideoStreamCv2)
    (hdev : v.isDevice = false) (hopen : v.cap.opened = true) (hk : 1 ≤ k)
    (hseek : v.seek (SeekTarget.int k) = Except.ok w) :
    w.frame_number = k ∧ ((w.read decode true).1).frame_number = k + 1 := by
  rw [VideoStreamCv2.seek_int_eq v k hdev hk] at hseek
  have hw := (Except.ok.injEq _ _).mp hseek
  subst hw
  refine ⟨rfl, ?_⟩
  rw [VideoStreamCv2.read_advance_fst _ decode (by simpa using hopen)]
  simp [VideoStreamCv2.frame_number, Cv2Capture.grab]

/-- C4 witness: the amended theorem applied to the sample adapter at
k = 5; the seek succeeds and the subsequent advancing read leaves
frame_number = 6. -/
theorem c4_witness :
    ∃ w, sampleAdapter.seek (SeekTarget.int 5) = Except.ok w
      ∧ w.frame_number = 5 ∧ ((w.read true true).1).frame_number = 6 := by
  have hseek := VideoStreamCv2.seek_int_eq sampleAdapter 5 rfl (by norm_num)
  exact ⟨_, hseek,
    c4_frame_number_after_seek_and_read sampleAdapter 5 true _ rfl rfl
      (by norm_num) hseek⟩

/-- C5 counterexample: the open-time frame-rate check is strict, so a
decoder-reported rate exactly at the minimum threshold is accepted
although the claim requires failure at or below the threshold; and a
supplied override of 0.0 is falsy in Python, so the decoder rate is
used although the claim requires a supplied override to be used. -/
theorem c5_counterexample_threshold_and_zero_override :
    resolve_framerate none MINIMUM_FRAMES_PER_SECOND_FLOAT
        = Except.ok MINIMUM_FRAMES_PER_SECOND_FLOAT
  ∧ resolve_framerate (some 0) 30 = Except.ok 30 := by
  constructor
  · simp [resolve_framerate, framerateFalsy]
  · rw [resolve_framerate, if_pos (by simp [framerateFalsy]),
      if_neg (by rw [MINIMUM_FRAMES_PER_SECOND_FLOAT]; norm_num)]

/-- C5 amended: without an override (or with the falsy override 0.0,
handled by the counterexample), opening fails with VideoOpenFailure
exactly when the decoder-reported rate is strictly below the minimum
threshold and otherwise uses the reported rate; a nonzero explicit
override is always used as the frame rate. -/
theorem c5_framerate_resolution (reported q : ℚ) (hq : q ≠ 0) :
    (reported < MINIMUM_FRAMES_PER_SECOND_FLOAT →
        resolve_framerate none reported
          = Except.error StreamError.videoOpenFailure)
  ∧ (MINIMUM_FRAMES_PER_SECOND_FLOAT ≤ reported →
        resolve_framerate none reported = Except.ok reported)
  ∧ resolve_framerate (some q) reported = Except.ok q := by
  refine ⟨fun h => ?_, fun h => ?_, ?_⟩
  · simp [resolve_framerate, framerateFalsy, h]
  · have h' : ¬ reported < MINIMUM_FRAMES_PER_SECOND_FLOAT := not_lt.mpr h
    simp [resolve_framerate, framerateFalsy, h']
  · simp [resolve_framerate, framerateFalsy, hq]

/-- C5 witness: the amended theorem at a reported rate of 30 and an
override of 25. -/
theorem c5_witness :
    resolve_framerate (some 25) 30 = Except.ok 25
      ∧ resolve_framerate none 30 = Except.ok 30 :=
  ⟨(c5_framerate_resolution 30 25 (by norm_num)).2.2,
   (c5_framerate_resolution 30 25 (by norm_num)).2.1
     (by rw [MINIMUM_FRAMES_PER_SECOND_FLOAT]; norm_num)⟩

/-- C6: the read contract.  A closed capture yields absence and an
unchanged state; an advancing read on an open capture performs one grab
and sets hasGrabbed while clearing hasSeeked; when decode is requested
and a frame has been grabbed the retrieved buffer is returned; with
decode off, or with nothing grabbed, absence is returned. -/
theorem c6_read_contract (v : VideoStreamCv2) (decode advance : Bool) :
    (v.cap.opened = false → v.read decode advance = (v, none))
  ∧ (v.cap.opened = true → advance = true →
        ((v.read decode advance).1.cap.posFrames = v.cap.posFrames + 1
          ∧ (v.read decode advance).1.hasGrabbed = true
          ∧ (v.read decode advance).1.hasSeeked = false))
  ∧ (v.cap.opened = true → decode = true →
        (v.read decode advance).1.hasGrabbed = true →
        (v.read decode advance).2
          = some (v.read decode advance).1.cap.retrieve)
  ∧ (decode = false → (v.read decode advance).2 = none)
  ∧ ((v.read decode advance).1.hasGrabbed = false →
        (v.read decode advance).2 = none) := by
  cases hop : v.cap.opened <;> cases advance <;> cases decode <;>
    cases hg : v.hasGrabbed <;>
      simp [VideoStreamCv2.read, Cv2Capture.grab, hop, hg]

/-- C6 witness: the contract applied to the sample adapter with decode
and advance both set. -/
theorem c6_witness :
    (sampleAdapter.read true true).1.hasGrabbed = true
      ∧ (sampleAdapter.read true true).1.hasSeeked = false :=
  ⟨((c6_read_contract sampleAdapter true true).2.1 rfl rfl).2.1,
   ((c6_read_contract sampleAdapter true true).2.1 rfl rfl).2.2⟩

/-- C7: the position property always carries the frame rate of the
stream, equals base_timecode (frame 0) whenever frame_number < 1, and
is the timecode of frame_number - 1 otherwise, reflecting the 1-based
at-first-read convention mapping to timecode 0. -/
theorem c7_position_characterisation (v : VideoStreamCv2) :
    v.position.framerate = v.frameRate
  ∧ (v.frame_number < 1 → v.position = v.base_timecode)
  ∧ (v.frame_number < 1 → v.position.frame_num = 0)
  ∧ (1 ≤ v.frame_number → v.position.frame_num = v.frame_number - 1) := by
  refine ⟨?_, fun h => ?_, fun h => ?_, fun h => ?_⟩
  · rw [VideoStreamCv2.position]
    split_ifs <;> rfl
  · rw [VideoStreamCv2.position, if_pos h]
  · rw [VideoStreamCv2.position, if_pos h]
    rfl
  · rw [VideoStreamCv2.position, if_neg (by omega)]
    simp [FrameTimecode.addFrames, VideoStreamCv2.base_timecode]

/-- C7 witness: on the freshly opened sample adapter frame_number is 0,
so position is the base timecode. -/
theorem c7_witness :
    sampleAdapter.frame_number < 1
      ∧ sampleAdapter.position = sampleAdapter.base_timecode :=
  ⟨by decide, (c7_position_characterisation sampleAdapter).2.1 (by decide)⟩

/-- Bridge between the table walk of compute_downscale_factor and the
spec-worded largest-threshold lookup. -/
theorem compute_downscale_factor_eq (w : ℤ) :
    compute_downscale_factor w = downscale_factor_spec w := by
  simp only [compute_downscale_factor, DEFAULT_DOWNSCALE_FACTORS,
    downscale_factor_spec]
  by_cases h1 : (3200 : ℤ) ≤ w
  · simp [List.find?, h1]
  by_cases h2 : (2100 : ℤ) ≤ w
  · simp [List.find?, h1, h2]
  by_cases h3 : (1700 : ℤ) ≤ w
  · simp [List.find?, h1, h2, h3]
  by_cases h4 : (1200 : ℤ) ≤ w
  · simp [List.find?, h1, h2, h3, h4]
  by_cases h5 : (900 : ℤ) ≤ w
  · simp [List.find?, h1, h2, h3, h4, h5]
  by_cases h6 : (600 : ℤ) ≤ w
  · simp [List.find?, h1, h2, h3, h4, h5, h6]
  by_cases h7 : (400 : ℤ) ≤ w
  · simp [List.find?, h1, h2, h3, h4, h5, h6, h7]
  · simp [List.find?, h1, h2, h3, h4, h5, h6, h7]

set_option maxHeartbeats 1000000 in
/-- C8: compute_downscale_factor agrees with the spec-worded table
lookup (factor of the largest threshold not exceeding the width),
returns exactly 1 below the smallest threshold, and is monotonically
non-increasing as the width decreases. -/
theorem c8_downscale_policy :
    (∀ w : ℤ, compute_downscale_factor w = downscale_factor_spec w)
  ∧ (∀ w : ℤ, w < 400 → compute_downscale_factor w = 1)
  ∧ (∀ w1 w2 : ℤ, w1 ≤ w2 →
        compute_downscale_factor w1 ≤ compute_downscale_factor w2) := by
  refine ⟨compute_downscale_factor_eq, fun w hw => ?_, fun w1 w2 h => ?_⟩
  · rw [compute_downscale_factor_eq, downscale_factor_spec]
    split_ifs <;> omega
  · rw [compute_downscale_factor_eq, compute_downscale_factor_eq,
      downscale_factor_spec, downscale_factor_spec]
    split_ifs <;> omega

/-- C8 witness: the policy evaluated below the smallest threshold and
across a boundary. -/
theorem c8_witness :
    ((399 : ℤ) < 400 ∧ compute_downscale_factor 399 = 1)
      ∧ compute_downscale_factor 100 ≤ compute_downscale_factor 5000 :=
  ⟨⟨by norm_num, c8_downscale_policy.2.1 399 (by norm_num)⟩,
   c8_downscale_policy.2.2 100 5000 (by norm_num)⟩

/-- C9: on a device-backed adapter, seek fails with SeekError for every
target of every type and value; the error kind shows the ValueError
target-validity guards are never reached even for invalid targets. -/
theorem c9_device_seek_always_fails (v : VideoStreamCv2)
    (target : SeekTarget) (hdev : v.isDevice = true) :
    v.seek target = Except.error StreamError.seekError := by
  simp [VideoStreamCv2.seek, hdev]

/-- C9 witness: the device adapter rejects the otherwise-invalid
negative integer target with SeekError, not ValueError. -/
theorem c9_witness :
    deviceAdapter.seek (SeekTarget.int (-1))
      = Except.error StreamError.seekError :=
  c9_device_seek_always_fails deviceAdapter (SeekTarget.int (-1)) rfl

/-- C10: the downscale setter rejects every value strictly below 1
(float or int) with a ValueError before any coercion, truncates float
values of at least 1 to integers, and every stored downscale value is
an integer of at least 1. -/
theorem c10_downscale_setter (v : VideoStreamCv2) :
    (∀ q : ℚ, 0 < q → q < 1 →
        v.set_downscale (PyNum.float q) = Except.error StreamError.valueError)
  ∧ (∀ x : PyNum, x.toRat < 1 →
        v.set_downscale x = Except.error StreamError.valueError)
  ∧ (∀ q : ℚ, 1 ≤ q →
        v.set_downscale (PyNum.float q)
          = Except.ok { v with downscale := pyTrunc q })
  ∧ (∀ x : PyNum, ∀ w : VideoStreamCv2,
        v.set_downscale x = Except.ok w → 1 ≤ w.downscale) := by
  refine ⟨fun q h0 h1 => ?_, fun x hx => ?_, fun q hq => ?_,
    fun x w hxw => ?_⟩
  · simp [VideoStreamCv2.set_downscale, PyNum.toRat, h1]
  · simp [VideoStreamCv2.set_downscale, hx]
  · have h' : ¬ (PyNum.float q).toRat < 1 := by
      simp only [PyNum.toRat]
      exact not_lt.mpr hq
    rw [VideoStreamCv2.set_downscale, if_neg h']
  · rw [VideoStreamCv2.set_downscale.eq_def] at hxw
    by_cases hlt : x.toRat < 1
    · rw [if_pos hlt] at hxw
      exact absurd hxw (by simp)
    · rw [if_neg hlt] at hxw
      cases x with
      | int n =>
          have hw := (Except.ok.injEq _ _).mp hxw
          have hn : (1 : ℚ) ≤ (n : ℚ) := by
            simpa [PyNum.toRat] using not_lt.mp hlt
          have : (1 : ℤ) ≤ n := by exact_mod_cast hn
          rw [← hw]
          simpa using this
      | float q =>
          have hw := (Except.ok.injEq _ _).mp hxw
          have hq1 : (1 : ℚ) ≤ q := by
            simpa [PyNum.toRat] using not_lt.mp hlt
          have htr : 1 ≤ pyTrunc q := by
            rw [pyTrunc, if_pos (le_trans zero_le_one hq1)]
            exact Int.le_floor.mpr (by exact_mod_cast hq1)
          rw [← hw]
          simpa using htr

/-- C10 witness: assigning 0.5 to the downscale setter of the sample
adapter raises the ValueError. -/
theorem c10_witness :
    sampleAdapter.set_downscale (PyNum.float (1 / 2))
      = Except.error StreamError.valueError :=
  (c10_downscale_setter sampleAdapter).1 (1 / 2) (by norm_num) (by norm_num)

end PySceneDetect
